import Mathlib

/-!
Verification of the asynchronous background job pipeline of the CtrlChecks
worker service: the configured retry wrapper (app/utils/retries.py, which
instantiates tenacity), the job creation endpoint, the job status endpoint and
the job processor (app/services/workflow_generation.py), and the background
task queue worker loop (app/background/task_queue.py).

The embedding is shallow: each Python function is translated into a Lean
function over explicit state.  External effects (the Supabase job store, the
generation backend call, wall-clock timestamps) are represented by explicit
parameters: a job store is an association list, a store write either succeeds
or raises atomically, the generation action is given by its per-invocation
outcome, and timestamps are opaque strings supplied by the environment.
-/

namespace CtrlChecksWorker

/-! ## Retry policy (app/utils/retries.py)

retry_configured() returns a tenacity retry decorator with
retry_if_exception_type(Exception) (every raised error is retried),
stop_after_attempt(settings.max_retries) (stop when the attempt number
reaches max_retries; the first attempt always runs) and reraise=True
(after the final failed attempt the last error is raised unchanged).
-/

/-- One run of the tenacity retry loop over a pure fallible action.  The
action is given by its outcome at each 1-based invocation number.
remaining is the number of attempts still allowed after the current one,
so the entry point passes maxAttempts - 1; n is the current attempt
number.  Returns the final outcome together with the number of
invocations performed. -/
def retryCallGo {α : Type} (act : Nat → Except String α) (remaining n : Nat) :
    Except String α × Nat :=
  match act n, remaining with
  | .ok a, _ => (.ok a, 1)
  | .error e, 0 => (.error e, 1)
  | .error _, r + 1 =>
    let p := retryCallGo act r (n + 1)
    (p.1, p.2 + 1)

/-- A call to an action wrapped by retry_configured(): tenacity starts at
attempt number 1 and stop_after_attempt(maxAttempts) permits
maxAttempts - 1 further attempts after the first. -/
def retryCall {α : Type} (act : Nat → Except String α) (maxAttempts : Nat) :
    Except String α × Nat :=
  retryCallGo act (maxAttempts - 1) 1

/-- tenacity wait_exponential.__call__: the raw value is
multiplier * expBase ^ (attemptNumber - 1), and the returned delay is
max(max(0, min), min(raw, max)).  Seconds are modelled as rationals. -/
def waitExponential (multiplier minW maxW expBase : ℚ) (attemptNumber : Nat) : ℚ :=
  max (max 0 minW) (min (multiplier * expBase ^ (attemptNumber - 1)) maxW)

/-- The wait configured by retry_configured(): wait_exponential is passed
min = settings.retry_base_seconds and max = settings.retry_max_seconds,
leaving multiplier = 1 and exp_base = 2.  Defaults in app/settings.py are
retry_base_seconds = 1.0 and retry_max_seconds = 20.0. -/
def retryConfiguredWait (baseSeconds maxSeconds : ℚ) (attemptNumber : Nat) : ℚ :=
  waitExponential 1 baseSeconds maxSeconds 2 attemptNumber

/-- The backoff delay formula as the specification states it:
min(maxDelay, baseDelay * 2 ^ (n - 1)) before the attempt following the
n-th failed attempt. -/
def specRetryDelay (baseDelay maxDelay : ℚ) (n : Nat) : ℚ :=
  min maxDelay (baseDelay * 2 ^ (n - 1))

/-! ## Job records and the job store

The workflow_generation_jobs table rows, with the columns this service
reads or writes.  Nullable columns are Option; the opaque JSON payloads
(workflow_result, current_workflow, execution_history, config, progress
logs, observability) are kept as opaque strings.  The store is the
external Supabase table, modelled as an association list from job id to
row; each select / insert / update is atomic. -/

structure Job where
  id : String
  user_id : Option String
  prompt : String
  mode : String
  current_workflow : Option String
  execution_history : Option String
  config : Option String
  status : Option String
  progress_percentage : Option Nat
  workflow_result : Option String
  error_message : Option String
  error_details : Option String
  current_phase : Option String
  created_at : Option String
  started_at : Option String
  finished_at : Option String
  duration_ms : Option Nat
  progress_logs : Option String
  observability : Option String
  deriving DecidableEq

abbrev JobStore := List (String × Job)

/-- select("*").eq("id", jobId).single().execute().data — the first row
whose id matches, if any. -/
def lookupJob (s : JobStore) (jobId : String) : Option Job :=
  (s.find? (fun p => p.1 == jobId)).map (fun p => p.2)

/-- update(fields).eq("id", jobId).execute() — rewrite every row whose id
matches (ids are unique in practice); a missing id updates no row. -/
def updateJob (s : JobStore) (jobId : String) (f : Job → Job) : JobStore :=
  s.map (fun p => if p.1 == jobId then (p.1, f p.2) else p)

/-- Python truthiness of an optional string: present and non-empty. -/
def truthyStr : Option String → Bool
  | none => false
  | some s => s != ""

/-- Python expression a or b for an optional string a with default b:
a when present and truthy, else b. -/
def pyOrStr (a : Option String) (b : String) : String :=
  match a with
  | some s => if s == "" then b else s
  | none => b

/-! ## Job creation (generate_workflow_async, workflow_generation.py) -/

/-- The request payload fields generate_workflow_async reads.  The opaque
members (currentWorkflow, executionHistory, config) stay abstract. -/
structure GenPayload where
  prompt : Option String
  description : Option String
  mode : Option String
  currentWorkflow : Option String
  executionHistory : Option String
  config : Option String
  deriving DecidableEq

/-- Python str.strip(): drop whitespace from both ends, implemented over
the character list of the string. -/
def pyStrip (s : String) : String :=
  ⟨((s.data.dropWhile Char.isWhitespace).reverse.dropWhile Char.isWhitespace).reverse⟩

/-- _extract_prompt: (payload.get("prompt") or payload.get("description")
or "").strip(). -/
def extractPrompt (p : GenPayload) : String :=
  pyStrip (pyOrStr p.prompt (pyOrStr p.description ""))

/-- The 202 response body of generate_workflow_async. -/
structure CreateBody where
  job_id : String
  status : String
  message : String
  estimated_completion_time : String
  deriving DecidableEq

/-- Result of generate_workflow_async: an HTTP status code together with
either an error body or the acceptance body plus the store after the
insert. -/
inductive CreateResult where
  | badRequest (httpStatus : Nat) (error : String)
  | accepted (httpStatus : Nat) (body : CreateBody) (store : JobStore)
  deriving DecidableEq

/-- The row generate_workflow_async inserts: the extracted prompt, the
resolved requester identity as user_id, status queued and progress 0;
created_at is filled by the database, the remaining columns start null. -/
def newQueuedJob (payload : GenPayload) (userId : Option String)
    (newJobId : String) : Job :=
  { id := newJobId
    user_id := userId
    prompt := extractPrompt payload
    mode := pyOrStr payload.mode "create"
    current_workflow := payload.currentWorkflow
    execution_history := payload.executionHistory
    config := payload.config
    status := some "queued"
    progress_percentage := some 0
    workflow_result := none
    error_message := none
    error_details := none
    current_phase := none
    created_at := none
    started_at := none
    finished_at := none
    duration_ms := none
    progress_logs := none
    observability := none }

/-- generate_workflow_async after JSON parsing: validate the prompt, then
insert a queued job row and answer 202.  The requester identity (resolved
from the Authorization header by supabase.auth.get_user, none when the
header is absent or resolves to no user) and the generated job id are
environment inputs. -/
def generateWorkflowAsync (payload : GenPayload) (userId : Option String)
    (newJobId : String) (s : JobStore) : CreateResult :=
  let prompt := extractPrompt payload
  if prompt == "" then
    .badRequest 400 "Prompt is required and must be a non-empty string"
  else
    .accepted 202
      { job_id := newJobId
        status := "queued"
        message := "Workflow generation job created. Poll /workflow-status/{job_id} for results."
        estimated_completion_time := "30-120 seconds" }
      ((newJobId, newQueuedJob payload userId newJobId) :: s)

/-! ## Job status read (workflow_status, workflow_generation.py) -/

/-- The 200 response body built by workflow_status. -/
structure StatusBody where
  job_id : String
  status : Option String
  progress_percentage : Nat
  current_phase : Option String
  created_at : Option String
  started_at : Option String
  finished_at : Option String
  duration_ms : Option Nat
  workflow : Option String
  error : Option String
  error_details : Option String
  progress_logs : Option String
  observability : Option String
  deriving DecidableEq

/-- The response dictionary workflow_status assembles from a job row:
progress_percentage defaults to 0, the workflow field appears only for a
completed job with a truthy workflow_result, the error fields only for a
failed job with a truthy error_message, progress_logs and observability
only when truthy. -/
def buildStatusBody (job : Job) : StatusBody :=
  { job_id := job.id
    status := job.status
    progress_percentage := job.progress_percentage.getD 0
    current_phase := job.current_phase
    created_at := job.created_at
    started_at := job.started_at
    finished_at := job.finished_at
    duration_ms := job.duration_ms
    workflow :=
      if job.status == some "completed" && truthyStr job.workflow_result then
        job.workflow_result
      else none
    error :=
      if job.status == some "failed" && truthyStr job.error_message then
        job.error_message
      else none
    error_details :=
      if job.status == some "failed" && truthyStr job.error_message then
        job.error_details
      else none
    progress_logs := if truthyStr job.progress_logs then job.progress_logs else none
    observability := if truthyStr job.observability then job.observability else none }

/-- Result of workflow_status: HTTP status code plus the error or success
body, with the error and message strings of the source. -/
inductive StatusResult where
  | badRequest (httpStatus : Nat) (error message : String)
  | notFound (httpStatus : Nat) (error message : String)
  | forbidden (httpStatus : Nat) (error message : String)
  | ok (httpStatus : Nat) (body : StatusBody)
  deriving DecidableEq

/-- workflow_status: reject a missing or route-segment job id, answer 404
when the row is absent, 403 when both the resolved requester identity and
the stored owner are truthy and differ, else 200 with the assembled body.
The requester identity is the environment input resolved from the
Authorization header (none when the header is absent or the token
resolves to no user). -/
def workflowStatus (s : JobStore) (jobId : String) (userId : Option String) :
    StatusResult :=
  if jobId == "" || jobId == "workflow-status" || jobId == "status" then
    .badRequest 400 "Job ID is required"
      "Provide job_id in URL path: /workflow-status/{job_id}"
  else
    match lookupJob s jobId with
    | none =>
      .notFound 404 "Job not found" ("Job with ID " ++ jobId ++ " not found")
    | some job =>
      if truthyStr userId && truthyStr job.user_id && job.user_id != userId then
        .forbidden 403 "Forbidden" "You do not have access to this job"
      else
        .ok 200 (buildStatusBody job)

/-! ## Job processing (process_job, workflow_generation.py)

process_job is decorated with retry_configured(), so one call from the
worker runs the body up to max_retries times: a body run that raises is
retried (after the backoff wait) until an attempt returns normally or the
attempts are exhausted, and then the last error is raised unchanged.

The body: load the row (raise ValueError when absent), write
status running / progress 5 / started_at, call
_generate_workflow_payload on the stored input, and write the completed
row on success or the failed row (error_message = str(exc)) when the try
block raised.  The generation call and each store write perform network
effects, so the environment supplies their outcome per attempt: the
generation outcome (a result payload or a raised error message) and
whether each update call raises.  A write that raises changes no row. -/

/-- Environment of one attempt of the process_job body. -/
structure AttemptEnv where
  gen : Except String String
  runningWrite : Option String
  completedWrite : Option String
  failedWrite : Option String
  now : String

/-- Outcome of one attempt of the process_job body: the store afterwards,
the error the body raised (none when it returned normally), and how many
times the generation action was invoked (0 or 1). -/
structure AttemptResult where
  store : JobStore
  raised : Option String
  genCalls : Nat
  deriving DecidableEq

/-- The update written on entering the running phase. -/
def setRunning (now : String) (j : Job) : Job :=
  { j with status := some "running", progress_percentage := some 5,
           started_at := some now }

/-- The update written on success of the generation call. -/
def setCompleted (now result : String) (j : Job) : Job :=
  { j with status := some "completed", progress_percentage := some 100,
           workflow_result := some result, finished_at := some now }

/-- The update written by the except handler. -/
def setFailed (now errMsg : String) (j : Job) : Job :=
  { j with status := some "failed", error_message := some errMsg,
           finished_at := some now }

/-- One attempt of the process_job body. -/
def processJobAttempt (env : AttemptEnv) (jobId : String) (s : JobStore) :
    AttemptResult :=
  match lookupJob s jobId with
  | none => { store := s, raised := some ("Job not found: " ++ jobId), genCalls := 0 }
  | some _ =>
    match env.runningWrite with
    | some e => { store := s, raised := some e, genCalls := 0 }
    | none =>
      let s1 := updateJob s jobId (setRunning env.now)
      match env.gen with
      | .ok result =>
        match env.completedWrite with
        | none =>
          { store := updateJob s1 jobId (setCompleted env.now result),
            raised := none, genCalls := 1 }
        | some e =>
          match env.failedWrite with
          | none =>
            { store := updateJob s1 jobId (setFailed env.now e),
              raised := none, genCalls := 1 }
          | some e2 => { store := s1, raised := some e2, genCalls := 1 }
      | .error e =>
        match env.failedWrite with
        | none =>
          { store := updateJob s1 jobId (setFailed env.now e),
            raised := none, genCalls := 1 }
        | some e2 => { store := s1, raised := some e2, genCalls := 1 }

/-- Result of one worker-side process_job call: the store afterwards, the
error the call raised after exhausting its retries (none when some
attempt returned normally), the number of attempts run (each attempt
performs exactly one store lookup), and the total number of generation
invocations. -/
structure RunResult where
  store : JobStore
  raised : Option String
  attempts : Nat
  genCalls : Nat
  deriving DecidableEq

/-- The tenacity retry loop around the process_job body, threading the
store across attempts; remaining and n are as in retryCallGo. -/
def processLoop (env : Nat → AttemptEnv) (jobId : String) (remaining n : Nat)
    (s : JobStore) : RunResult :=
  match (processJobAttempt (env n) jobId s).raised, remaining with
  | none, _ =>
    { store := (processJobAttempt (env n) jobId s).store, raised := none,
      attempts := 1, genCalls := (processJobAttempt (env n) jobId s).genCalls }
  | some e, 0 =>
    { store := (processJobAttempt (env n) jobId s).store, raised := some e,
      attempts := 1, genCalls := (processJobAttempt (env n) jobId s).genCalls }
  | some _, r + 1 =>
    let rest := processLoop env jobId r (n + 1) (processJobAttempt (env n) jobId s).store
    { store := rest.store, raised := rest.raised,
      attempts := rest.attempts + 1,
      genCalls := (processJobAttempt (env n) jobId s).genCalls + rest.genCalls }

/-- One worker-side call of the decorated process_job. -/
def processJob (env : Nat → AttemptEnv) (maxRetries : Nat) (jobId : String)
    (s : JobStore) : RunResult :=
  processLoop env jobId (maxRetries - 1) 1 s

/-! ## Worker loop (TaskQueue._worker_loop, background/task_queue.py)

Each worker loop repeatedly dequeues a task, executes it under
try/except Exception (a raised error is logged and the loop continues)
and marks it done.  A finite schedule for one worker is the list of
tasks it dequeues before stop; each task is modelled by its outcome. -/

inductive TaskOutcome where
  | ok
  | raises (msg : String)
  deriving DecidableEq

/-- Execution of one dequeued task body. -/
def execTask : TaskOutcome → Except String Unit
  | .ok => .ok ()
  | .raises m => .error m

/-- What one worker loop did over its schedule. -/
structure WorkerResult where
  executed : Nat
  logged : List String
  deriving DecidableEq

/-- The worker loop over a finite schedule: every dequeued task is
executed; a task body that raises is caught, logged and the loop
continues with the next task. -/
def workerLoop : List TaskOutcome → WorkerResult
  | [] => { executed := 0, logged := [] }
  | t :: rest =>
    let tail := workerLoop rest
    match execTask t with
    | .ok _ => { executed := tail.executed + 1, logged := tail.logged }
    | .error e =>
      { executed := tail.executed + 1,
        logged := ("Background task failed: " ++ e) :: tail.logged }

/-! ## Operation traces over the job store

The operations the service performs against the store: job creation
(generate_workflow_async), a worker-side process_job call (enqueued
through POST /jobs/(job_id)/process and executed by a worker), and a
status read (workflow_status, which never writes).  A trace is a list of
operations applied in order to the store. -/

inductive Op where
  | create (payload : GenPayload) (userId : Option String) (newJobId : String)
  | process (jobId : String) (maxRetries : Nat) (env : Nat → AttemptEnv)
  | read (jobId : String) (userId : Option String)

/-- Effect of one operation on the store. -/
def applyOp (s : JobStore) : Op → JobStore
  | .create payload userId newJobId =>
    match generateWorkflowAsync payload userId newJobId s with
    | .badRequest _ _ => s
    | .accepted _ _ s' => s'
  | .process jobId maxRetries env => (processJob env maxRetries jobId s).store
  | .read _ _ => s

/-- Run a trace left to right. -/
def runOps (s : JobStore) : List Op → JobStore
  | [] => s
  | op :: rest => runOps (applyOp s op) rest

/-- The status of a job id in a store: none when the row is absent,
otherwise the status column of its row. -/
def statusOf (s : JobStore) (jobId : String) : Option (Option String) :=
  (lookupJob s jobId).map (fun j => j.status)

/-- The forward order of the job state machine on status values:
queued may move anywhere, running may stay or move to a terminal value,
completed and failed are terminal. -/
def forward (a b : Option String) : Prop :=
  a = b ∨ a = some "queued" ∨
    (a = some "running" ∧ (b = some "completed" ∨ b = some "failed"))

/-- Forward order lifted to a possibly absent job: an absent job may come
into existence, an existing job never disappears and its status moves
forward. -/
def statusLe (x y : Option (Option String)) : Prop :=
  match x, y with
  | none, _ => True
  | some _, none => False
  | some a, some b => forward a b

/-- Whether an operation is a process call for the given job id. -/
def isProcOf (jobId : String) : Op → Bool
  | .process j _ _ => j == jobId
  | _ => false

/-- A job id whose row is absent, queued or running — the statuses a job
can have before its (unique) process call runs. -/
def QR (s : JobStore) (jobId : String) : Prop :=
  statusOf s jobId = none ∨ statusOf s jobId = some (some "queued") ∨
    statusOf s jobId = some (some "running")

/-- Every create in the trace uses a job id that is absent from the store
at the moment the create runs (the source draws ids from the clock and a
random suffix; ids are never reused). -/
def FreshCreates (s : JobStore) (l : List Op) : Prop :=
  ∀ i (h : i < l.length) payload userId newJobId,
    l.get ⟨i, h⟩ = Op.create payload userId newJobId →
    lookupJob (runOps s (l.take i)) newJobId = none

/-- Each job id is processed at most once in the trace (the design
assumption: a job is enqueued for processing exactly once). -/
def AtMostOnce (l : List Op) : Prop :=
  ∀ jobId, l.countP (isProcOf jobId) ≤ 1

/-- Any job id still awaiting its process call is absent, queued or
running. -/
def FutureQR (s : JobStore) (l : List Op) : Prop :=
  ∀ jobId, 0 < l.countP (isProcOf jobId) → QR s jobId

/-! ## Sample fixtures for concrete instantiations -/

/-- A queued job row as inserted by job creation. -/
def sampleQueuedJob : Job :=
  { id := "job_1", user_id := none, prompt := "build a lead capture form",
    mode := "create", current_workflow := none, execution_history := none,
    config := none, status := some "queued", progress_percentage := some 0,
    workflow_result := none, error_message := none, error_details := none,
    current_phase := none, created_at := none, started_at := none,
    finished_at := none, duration_ms := none, progress_logs := none,
    observability := none }

/-- A queued job row with a recorded owner. -/
def ownedQueuedJob : Job :=
  { sampleQueuedJob with id := "job_2", user_id := some "user_a" }

def sampleStore : JobStore := [("job_1", sampleQueuedJob)]

def ownedStore : JobStore := [("job_2", ownedQueuedJob)]

/-- Environment whose generation action raises on every attempt and whose
store writes all succeed. -/
def timeoutEnv : Nat → AttemptEnv := fun _ =>
  { gen := .error "TimeoutError: generation timed out", runningWrite := none,
    completedWrite := none, failedWrite := none, now := "t1" }

/-- Environment whose generation action succeeds and whose store writes
all succeed. -/
def okEnv : Nat → AttemptEnv := fun _ =>
  { gen := .ok "generated-workflow", runningWrite := none,
    completedWrite := none, failedWrite := none, now := "t2" }

/-- Environment whose generation action raises on every attempt and whose
store writes all succeed, with a different error message. -/
def boomEnv : Nat → AttemptEnv := fun _ =>
  { gen := .error "boom", runningWrite := none,
    completedWrite := none, failedWrite := none, now := "t3" }

/-- Environment whose generation action succeeds but whose
completed-status write raises; the failed-status write succeeds. -/
def compFailEnv : Nat → AttemptEnv := fun _ =>
  { gen := .ok "generated-workflow", runningWrite := none,
    completedWrite := some "ConnectionError: update failed",
    failedWrite := none, now := "t4" }

/-- A creation payload with a prompt field. -/
def samplePayload : GenPayload :=
  { prompt := some "build a lead capture form", description := none,
    mode := none, currentWorkflow := none, executionHistory := none,
    config := none }

/-- A creation payload with no prompt field, only a description. -/
def descOnlyPayload : GenPayload :=
  { prompt := none, description := some "build a lead capture form",
    mode := none, currentWorkflow := none, executionHistory := none,
    config := none }

/-- A creation payload with neither prompt nor description. -/
def emptyPayload : GenPayload :=
  { prompt := none, description := none, mode := none,
    currentWorkflow := none, executionHistory := none, config := none }

/-- A retried action failing once, then succeeding. -/
def flakyAction : Nat → Except String Nat :=
  fun i => if i = 1 then .error "transient" else .ok 42

/-- A retried action failing on every invocation. -/
def alwaysFailAction : Nat → Except String Nat :=
  fun _ => .error "TimeoutError"

/-- Whether a creation result is the 202 acceptance. -/
def isAccepted : CreateResult → Bool
  | .accepted _ _ _ => true
  | .badRequest _ _ => false

/-! ### Retry loop lemmas -/

theorem retryCallGo_ok {α : Type} (act : Nat → Except String α) (r n : Nat)
    (v : α) (h : act n = .ok v) : retryCallGo act r n = (.ok v, 1) := by
  unfold retryCallGo
  rw [h]

theorem retryCallGo_succeeds_after {α : Type} (act : Nat → Except String α)
    (v : α) :
    ∀ k r n, (∀ i, n ≤ i → i < n + k → ∃ e, act i = .error e) →
      act (n + k) = .ok v → k ≤ r →
      retryCallGo act r n = (.ok v, k + 1) := by
  intro k
  induction k with
  | zero =>
    intro r n _ hsucc _
    exact retryCallGo_ok act r n v (by simpa using hsucc)
  | succ k ih =>
    intro r n hfail hsucc hkr
    obtain ⟨e, he⟩ := hfail n (Nat.le_refl n) (by omega)
    obtain ⟨r', rfl⟩ : ∃ r', r = r' + 1 := ⟨r - 1, by omega⟩
    have step : retryCallGo act (r' + 1) n =
        ((retryCallGo act r' (n + 1)).1, (retryCallGo act r' (n + 1)).2 + 1) := by
      conv_lhs => unfold retryCallGo
      rw [he]
    have tail : retryCallGo act r' (n + 1) = (.ok v, k + 1) := by
      refine ih r' (n + 1) ?_ ?_ (by omega)
      · intro i hi hi'
        exact hfail i (by omega) (by omega)
      · have : n + 1 + k = n + (k + 1) := by omega
        rw [this]
        exact hsucc
    rw [step, tail]

theorem retryCallGo_always_fails {α : Type} (act : Nat → Except String α)
    (err : Nat → String) (hfail : ∀ i, act i = .error (err i)) :
    ∀ r n, retryCallGo act r n = (.error (err (n + r)), r + 1) := by
  intro r
  induction r with
  | zero =>
    intro n
    conv_lhs => unfold retryCallGo
    rw [hfail n]
    rfl
  | succ r ih =>
    intro n
    have step : retryCallGo act (r + 1) n =
        ((retryCallGo act r (n + 1)).1, (retryCallGo act r (n + 1)).2 + 1) := by
      conv_lhs => unfold retryCallGo
      rw [hfail n]
    rw [step, ih (n + 1)]
    have : n + 1 + r = n + (r + 1) := by omega
    rw [this]

/-! ## Store lemmas -/

theorem lookupJob_cons (k : String) (job : Job) (s : JobStore) (j : String) :
    lookupJob ((k, job) :: s) j = if k = j then some job else lookupJob s j := by
  by_cases h : k = j
  · simp [lookupJob, List.find?_cons_of_pos, h]
  · have hb : ((k, job).1 == j) = false := by simpa using h
    simp [lookupJob, List.find?_cons_of_neg, hb, h]

theorem updateJob_cons (k : String) (job : Job) (tl : JobStore) (i : String)
    (f : Job → Job) :
    updateJob ((k, job) :: tl) i f =
      (if k == i then (k, f job) else (k, job)) :: updateJob tl i f := rfl

theorem lookupJob_update (s : JobStore) (i : String) (f : Job → Job) (j : String) :
    lookupJob (updateJob s i f) j =
      if i = j then (lookupJob s j).map f else lookupJob s j := by
  induction s with
  | nil => simp [updateJob, lookupJob]
  | cons hd tl ih =>
    obtain ⟨k, job⟩ := hd
    rw [updateJob_cons]
    by_cases hki : k = i
    · subst hki
      rw [if_pos (by simp)]
      by_cases hkj : k = j
      · subst hkj
        rw [lookupJob_cons, lookupJob_cons, if_pos rfl, if_pos rfl, if_pos rfl]
        rfl
      · rw [lookupJob_cons, lookupJob_cons, if_neg hkj, if_neg hkj, if_neg hkj, ih,
          if_neg hkj]
    · rw [if_neg (by simpa using hki)]
      by_cases hkj : k = j
      · subst hkj
        have hij : ¬ i = k := fun h => hki h.symm
        rw [lookupJob_cons, lookupJob_cons, if_pos rfl, if_pos rfl, if_neg hij]
      · rw [lookupJob_cons, lookupJob_cons, if_neg hkj, if_neg hkj, ih]

theorem lookupJob_update_same (s : JobStore) (i : String) (f : Job → Job) :
    lookupJob (updateJob s i f) i = (lookupJob s i).map f := by
  simp [lookupJob_update]

theorem lookupJob_update_other (s : JobStore) (i : String) (f : Job → Job)
    (j : String) (h : i ≠ j) :
    lookupJob (updateJob s i f) j = lookupJob s j := by
  simp [lookupJob_update, h]

/-! ## Status order lemmas -/

theorem forward_refl (a : Option String) : forward a a := Or.inl rfl

theorem statusLe_refl (x : Option (Option String)) : statusLe x x := by
  cases x with
  | none => trivial
  | some a => exact forward_refl a

theorem forward_trans {a b c : Option String} (hab : forward a b)
    (hbc : forward b c) : forward a c := by
  rcases hab with rfl | ha | ⟨ha, hb⟩
  · exact hbc
  · exact Or.inr (Or.inl ha)
  · rcases hbc with rfl | hb' | ⟨hb', _⟩
    · exact Or.inr (Or.inr ⟨ha, hb⟩)
    · rcases hb with rfl | rfl
      · exact absurd hb' (by decide)
      · exact absurd hb' (by decide)
    · rcases hb with rfl | rfl
      · exact absurd hb' (by decide)
      · exact absurd hb' (by decide)

theorem statusLe_trans {x y z : Option (Option String)} (hxy : statusLe x y)
    (hyz : statusLe y z) : statusLe x z := by
  cases x with
  | none => trivial
  | some a =>
    cases y with
    | none => exact absurd hxy (by simp [statusLe])
    | some b =>
      cases z with
      | none => exact absurd hyz (by simp [statusLe])
      | some c => exact forward_trans hxy hyz

/-! ## process_job lemmas -/

theorem processLoop_eq (env : Nat → AttemptEnv) (jobId : String) (r n : Nat)
    (s : JobStore) :
    processLoop env jobId r n s =
      match (processJobAttempt (env n) jobId s).raised, r with
      | none, _ =>
        { store := (processJobAttempt (env n) jobId s).store, raised := none,
          attempts := 1, genCalls := (processJobAttempt (env n) jobId s).genCalls }
      | some e, 0 =>
        { store := (processJobAttempt (env n) jobId s).store, raised := some e,
          attempts := 1, genCalls := (processJobAttempt (env n) jobId s).genCalls }
      | some _, r' + 1 =>
        { store := (processLoop env jobId r' (n + 1)
            (processJobAttempt (env n) jobId s).store).store,
          raised := (processLoop env jobId r' (n + 1)
            (processJobAttempt (env n) jobId s).store).raised,
          attempts := (processLoop env jobId r' (n + 1)
            (processJobAttempt (env n) jobId s).store).attempts + 1,
          genCalls := (processJobAttempt (env n) jobId s).genCalls +
            (processLoop env jobId r' (n + 1)
              (processJobAttempt (env n) jobId s).store).genCalls } := by
  conv_lhs => unfold processLoop

theorem processJobAttempt_frame (env : AttemptEnv) (jobId : String)
    (s : JobStore) (j : String) (h : jobId ≠ j) :
    lookupJob (processJobAttempt env jobId s).store j = lookupJob s j := by
  obtain ⟨g, rw_, cw, fw, now⟩ := env
  rcases hl : lookupJob s jobId with _ | job
  · simp [processJobAttempt, hl]
  · rcases rw_ with _ | e
    · rcases g with e | result
      · rcases fw with _ | e2 <;>
          simp [processJobAttempt, hl, lookupJob_update_other _ _ _ _ h]
      · rcases cw with _ | e <;> rcases fw with _ | e2 <;>
          simp [processJobAttempt, hl, lookupJob_update_other _ _ _ _ h]
    · simp [processJobAttempt, hl]

theorem processJobAttempt_statusLe (env : AttemptEnv) (jobId : String)
    (s : JobStore) (hqr : QR s jobId) :
    statusLe (statusOf s jobId)
        (statusOf (processJobAttempt env jobId s).store jobId) ∧
      ((processJobAttempt env jobId s).raised.isSome →
        QR (processJobAttempt env jobId s).store jobId) := by
  obtain ⟨g, rw_, cw, fw, now⟩ := env
  rcases hl : lookupJob s jobId with _ | job
  · have hres : processJobAttempt ⟨g, rw_, cw, fw, now⟩ jobId s =
        { store := s, raised := some ("Job not found: " ++ jobId), genCalls := 0 } := by
      simp [processJobAttempt, hl]
    rw [hres]
    exact ⟨statusLe_refl _, fun _ => hqr⟩
  · have h0 : statusOf s jobId = some job.status := by simp [statusOf, hl]
    have hst : job.status = some "queued" ∨ job.status = some "running" := by
      rcases hqr with hq | hq | hq <;> simp [statusOf, hl] at hq
      · exact Or.inl hq
      · exact Or.inr hq
    have hfwd : ∀ t, t = "completed" ∨ t = "failed" ∨ t = "running" →
        forward job.status (some t) := by
      intro t ht
      rcases hst with hs | hs <;> rw [hs]
      · exact Or.inr (Or.inl rfl)
      · rcases ht with rfl | rfl | rfl
        · exact Or.inr (Or.inr ⟨rfl, Or.inl rfl⟩)
        · exact Or.inr (Or.inr ⟨rfl, Or.inr rfl⟩)
        · exact Or.inl rfl
    have hrun : statusOf (updateJob s jobId (setRunning now)) jobId =
        some (some "running") := by
      simp [statusOf, lookupJob_update_same, hl, setRunning]
    have hfail : ∀ e, statusOf (updateJob (updateJob s jobId (setRunning now))
        jobId (setFailed now e)) jobId = some (some "failed") := by
      intro e
      simp [statusOf, lookupJob_update_same, hl, setRunning, setFailed]
    have hcomp : ∀ res, statusOf (updateJob (updateJob s jobId (setRunning now))
        jobId (setCompleted now res)) jobId = some (some "completed") := by
      intro res
      simp [statusOf, lookupJob_update_same, hl, setRunning, setCompleted]
    rcases rw_ with _ | e
    · rcases g with e | result
      · rcases fw with _ | e2
        · have hres : processJobAttempt ⟨.error e, none, cw, none, now⟩ jobId s =
              { store := updateJob (updateJob s jobId (setRunning now)) jobId
                  (setFailed now e),
                raised := none, genCalls := 1 } := by
            simp [processJobAttempt, hl]
          rw [hres]
          refine ⟨?_, by simp⟩
          rw [h0, hfail e]
          exact hfwd "failed" (Or.inr (Or.inl rfl))
        · have hres : processJobAttempt ⟨.error e, none, cw, some e2, now⟩ jobId s =
              { store := updateJob s jobId (setRunning now), raised := some e2,
                genCalls := 1 } := by
            simp [processJobAttempt, hl]
          rw [hres]
          refine ⟨?_, fun _ => ?_⟩
          · rw [h0, hrun]
            exact hfwd "running" (Or.inr (Or.inr rfl))
          · right; right; exact hrun
      · rcases cw with _ | e
        · have hres : processJobAttempt ⟨.ok result, none, none, fw, now⟩ jobId s =
              { store := updateJob (updateJob s jobId (setRunning now)) jobId
                  (setCompleted now result),
                raised := none, genCalls := 1 } := by
            simp [processJobAttempt, hl]
          rw [hres]
          refine ⟨?_, by simp⟩
          rw [h0, hcomp result]
          exact hfwd "completed" (Or.inl rfl)
        · rcases fw with _ | e2
          · have hres : processJobAttempt ⟨.ok result, none, some e, none, now⟩ jobId s =
                { store := updateJob (updateJob s jobId (setRunning now)) jobId
                    (setFailed now e),
                  raised := none, genCalls := 1 } := by
              simp [processJobAttempt, hl]
            rw [hres]
            refine ⟨?_, by simp⟩
            rw [h0, hfail e]
            exact hfwd "failed" (Or.inr (Or.inl rfl))
          · have hres : processJobAttempt ⟨.ok result, none, some e, some e2, now⟩ jobId s =
                { store := updateJob s jobId (setRunning now), raised := some e2,
                  genCalls := 1 } := by
              simp [processJobAttempt, hl]
            rw [hres]
            refine ⟨?_, fun _ => ?_⟩
            · rw [h0, hrun]
              exact hfwd "running" (Or.inr (Or.inr rfl))
            · right; right; exact hrun
    · have hres : processJobAttempt ⟨g, some e, cw, fw, now⟩ jobId s =
          { store := s, raised := some e, genCalls := 0 } := by
        simp [processJobAttempt, hl]
      rw [hres]
      exact ⟨statusLe_refl _, fun _ => hqr⟩

theorem processLoop_frame (env : Nat → AttemptEnv) (jobId j : String)
    (h : jobId ≠ j) :
    ∀ r n s, lookupJob (processLoop env jobId r n s).store j = lookupJob s j := by
  intro r
  induction r with
  | zero =>
    intro n s
    rw [processLoop_eq]
    cases ha : (processJobAttempt (env n) jobId s).raised <;>
      simpa [ha] using processJobAttempt_frame (env n) jobId s j h
  | succ r ih =>
    intro n s
    rw [processLoop_eq]
    cases ha : (processJobAttempt (env n) jobId s).raised with
    | none => simpa using processJobAttempt_frame (env n) jobId s j h
    | some e =>
      show lookupJob (processLoop env jobId r (n + 1)
          (processJobAttempt (env n) jobId s).store).store j = lookupJob s j
      rw [ih (n + 1) _]
      exact processJobAttempt_frame (env n) jobId s j h

theorem processLoop_statusLe (env : Nat → AttemptEnv) (jobId : String) :
    ∀ r n s, QR s jobId →
      statusLe (statusOf s jobId)
        (statusOf (processLoop env jobId r n s).store jobId) := by
  intro r
  induction r with
  | zero =>
    intro n s hqr
    rw [processLoop_eq]
    cases ha : (processJobAttempt (env n) jobId s).raised <;>
      simpa [ha] using (processJobAttempt_statusLe (env n) jobId s hqr).1
  | succ r ih =>
    intro n s hqr
    rw [processLoop_eq]
    cases ha : (processJobAttempt (env n) jobId s).raised with
    | none => simpa using (processJobAttempt_statusLe (env n) jobId s hqr).1
    | some e =>
      show statusLe (statusOf s jobId)
        (statusOf (processLoop env jobId r (n + 1)
          (processJobAttempt (env n) jobId s).store).store jobId)
      have h1 := processJobAttempt_statusLe (env n) jobId s hqr
      have hq2 : QR (processJobAttempt (env n) jobId s).store jobId :=
        h1.2 (by simp [ha])
      exact statusLe_trans h1.1 (ih (n + 1) _ hq2)

/-- With the target job id absent, every attempt raises the ValueError of
process_job, the store is never written, the generation action is never
invoked, and the loop performs one lookup per attempt until the attempts
are exhausted. -/
theorem processLoop_notFound (env : Nat → AttemptEnv) (jobId : String) :
    ∀ r n (s : JobStore), lookupJob s jobId = none →
      processLoop env jobId r n s =
        { store := s, raised := some ("Job not found: " ++ jobId),
          attempts := r + 1, genCalls := 0 } := by
  intro r
  induction r with
  | zero =>
    intro n s habs
    rw [processLoop_eq]
    simp [processJobAttempt, habs]
  | succ r ih =>
    intro n s habs
    rw [processLoop_eq]
    have ha : processJobAttempt (env n) jobId s =
        { store := s, raised := some ("Job not found: " ++ jobId), genCalls := 0 } := by
      simp [processJobAttempt, habs]
    rw [ha]
    simp [ih (n + 1) s habs]

/-! ## Trace lemmas -/

theorem runOps_append (s : JobStore) (l1 l2 : List Op) :
    runOps s (l1 ++ l2) = runOps (runOps s l1) l2 := by
  induction l1 generalizing s with
  | nil => rfl
  | cons op rest ih => simp [runOps, ih]

theorem applyOp_create (payload : GenPayload) (uid : Option String)
    (nid : String) (s : JobStore) :
    applyOp s (Op.create payload uid nid) =
      if extractPrompt payload == "" then s
      else (nid, newQueuedJob payload uid nid) :: s := by
  by_cases h : (extractPrompt payload == "") = true <;>
    simp [applyOp, generateWorkflowAsync, h]

theorem statusOf_frame_process (jobId : String) (mr : Nat)
    (env : Nat → AttemptEnv) (j : String) (h : jobId ≠ j) (s : JobStore) :
    statusOf (applyOp s (Op.process jobId mr env)) j = statusOf s j := by
  simp [applyOp, processJob, statusOf, processLoop_frame env jobId j h]

theorem statusOf_frame_create (payload : GenPayload) (uid : Option String)
    (nid : String) (j : String) (h : nid ≠ j) (s : JobStore) :
    statusOf (applyOp s (Op.create payload uid nid)) j = statusOf s j := by
  rw [applyOp_create]
  by_cases hp : (extractPrompt payload == "") = true
  · simp [hp]
  · simp [hp, statusOf, lookupJob_cons, h]

theorem statusOf_create_self (payload : GenPayload) (uid : Option String)
    (nid : String) (s : JobStore) (hp : extractPrompt payload ≠ "") :
    statusOf (applyOp s (Op.create payload uid nid)) nid = some (some "queued") := by
  rw [applyOp_create]
  have hb : (extractPrompt payload == "") = false := by simpa using hp
  simp [hb, statusOf, lookupJob_cons, newQueuedJob]

theorem applyOp_statusLe (s : JobStore) (op : Op) (j : String)
    (hfresh : ∀ payload uid nid, op = Op.create payload uid nid →
      lookupJob s nid = none)
    (hqr : ∀ jobId mr env, op = Op.process jobId mr env → QR s jobId) :
    statusLe (statusOf s j) (statusOf (applyOp s op) j) := by
  cases op with
  | create payload uid nid =>
    by_cases hj : nid = j
    · subst hj
      have h0 : statusOf s nid = none := by
        simp [statusOf, hfresh payload uid nid rfl]
      rw [h0]
      trivial
    · rw [statusOf_frame_create payload uid nid j hj]
      exact statusLe_refl _
  | process jobId mr env =>
    by_cases hj : jobId = j
    · subst hj
      show statusLe (statusOf s jobId)
        (statusOf (processLoop env jobId (mr - 1) 1 s).store jobId)
      exact processLoop_statusLe env jobId (mr - 1) 1 s (hqr jobId mr env rfl)
    · rw [statusOf_frame_process jobId mr env j hj]
      exact statusLe_refl _
  | read _ _ => exact statusLe_refl _

theorem freshCreates_tail (s : JobStore) (op : Op) (l : List Op)
    (h : FreshCreates s (op :: l)) : FreshCreates (applyOp s op) l := by
  intro i hi payload uid nid hget
  have h2 := h (i + 1) (by simpa using Nat.succ_lt_succ hi) payload uid nid
    (by simpa using hget)
  simpa [runOps] using h2

theorem atMostOnce_tail (op : Op) (l : List Op) (h : AtMostOnce (op :: l)) :
    AtMostOnce l := by
  intro jobId
  have h2 := h jobId
  rw [List.countP_cons] at h2
  exact le_trans (Nat.le_add_right _ _) h2

theorem futureQR_tail (s : JobStore) (op : Op) (l : List Op)
    (hfq : FutureQR s (op :: l)) (hao : AtMostOnce (op :: l))
    (hfresh : FreshCreates s (op :: l)) : FutureQR (applyOp s op) l := by
  intro jobId hcount
  have hcount' : 0 < (op :: l).countP (isProcOf jobId) := by
    rw [List.countP_cons]
    exact Nat.lt_of_lt_of_le hcount (Nat.le_add_right _ _)
  cases op with
  | read _ _ => exact hfq jobId hcount'
  | create payload uid nid =>
    by_cases hj : nid = jobId
    · subst hj
      by_cases hp : (extractPrompt payload == "") = true
      · rw [applyOp_create, if_pos hp]
        exact hfq _ hcount'
      · right; left
        exact statusOf_create_self payload uid nid s (by simpa using hp)
    · unfold QR
      rw [statusOf_frame_create payload uid nid jobId hj]
      exact hfq _ hcount'
  | process pj mr env =>
    by_cases hj : pj = jobId
    · subst hj
      exfalso
      have h2 := hao pj
      rw [List.countP_cons] at h2
      have hself : isProcOf pj (Op.process pj mr env) = true := by
        simp [isProcOf]
      rw [hself, if_pos rfl] at h2
      omega
    · unfold QR
      rw [statusOf_frame_process pj mr env jobId hj]
      exact hfq _ hcount'

theorem runOps_statusLe_of_inv (j : String) :
    ∀ (l : List Op) (s : JobStore), FreshCreates s l → AtMostOnce l →
      FutureQR s l → statusLe (statusOf s j) (statusOf (runOps s l) j) := by
  intro l
  induction l with
  | nil =>
    intro s _ _ _
    exact statusLe_refl _
  | cons op rest ih =>
    intro s hf ha hq
    have step : statusLe (statusOf s j) (statusOf (applyOp s op) j) := by
      refine applyOp_statusLe s op j ?_ ?_
      · intro payload uid nid hop
        have h2 := hf 0 (by simp) payload uid nid (by simpa using hop)
        simpa [runOps] using h2
      · intro jobId mr env hop
        refine hq jobId ?_
        subst hop
        rw [List.countP_cons]
        have : isProcOf jobId (Op.process jobId mr env) = true := by
          simp [isProcOf]
        rw [this, if_pos rfl]
        omega
    exact statusLe_trans step
      (ih (applyOp s op) (freshCreates_tail s op rest hf)
        (atMostOnce_tail op rest ha) (futureQR_tail s op rest hq ha hf))

theorem freshCreates_take (s : JobStore) (l : List Op) (k : Nat)
    (h : FreshCreates s l) : FreshCreates s (l.take k) := by
  intro i hi payload uid nid hget
  have hik : i < k := by
    have := hi
    rw [List.length_take] at this
    omega
  have hil : i < l.length := by
    have := hi
    rw [List.length_take] at this
    omega
  have hg : l.get ⟨i, hil⟩ = Op.create payload uid nid := by
    rw [← hget]
    simp [List.get_eq_getElem, List.getElem_take]
  have h2 := h i hil payload uid nid hg
  rw [List.take_take, Nat.min_eq_left (Nat.le_of_lt hik)]
  exact h2

theorem atMostOnce_take (l : List Op) (k : Nat) (h : AtMostOnce l) :
    AtMostOnce (l.take k) := by
  intro jobId
  exact le_trans (List.Sublist.countP_le _ (List.take_sublist k l)) (h jobId)

theorem inv_after :
    ∀ (l1 l2 : List Op) (s : JobStore),
      FreshCreates s (l1 ++ l2) → AtMostOnce (l1 ++ l2) → FutureQR s (l1 ++ l2) →
      FreshCreates (runOps s l1) l2 ∧ AtMostOnce l2 ∧ FutureQR (runOps s l1) l2 := by
  intro l1
  induction l1 with
  | nil =>
    intro l2 s hf ha hq
    exact ⟨hf, ha, hq⟩
  | cons op rest ih =>
    intro l2 s hf ha hq
    exact ih l2 (applyOp s op) (freshCreates_tail s op (rest ++ l2) hf)
      (atMostOnce_tail op (rest ++ l2) ha)
      (futureQR_tail s op (rest ++ l2) hq ha hf)

/-! ## Claim theorems -/

/-- C4: for every fallible action wrapped by the configured retry policy,
if the action fails exactly k times with k < maxAttempts and then
succeeds, the wrapped call returns the success value after exactly k + 1
invocations; if the action fails on every invocation, the wrapped call
raises the last error unchanged after exactly maxAttempts invocations. -/
theorem retry_policy_invocation_counts {α : Type}
    (maxAttempts k : Nat) (hmax : 1 ≤ maxAttempts) (hk : k < maxAttempts)
    (act : Nat → Except String α) (v : α)
    (hfail : ∀ i, 1 ≤ i → i ≤ k → ∃ e, act i = .error e)
    (hsucc : act (k + 1) = .ok v)
    (always : Nat → Except String α) (err : Nat → String)
    (halways : ∀ i, always i = .error (err i)) :
    retryCall act maxAttempts = (.ok v, k + 1) ∧
    retryCall always maxAttempts = (.error (err maxAttempts), maxAttempts) := by
  constructor
  · unfold retryCall
    refine retryCallGo_succeeds_after act v k (maxAttempts - 1) 1 ?_ ?_ (by omega)
    · intro i hi hi'
      exact hfail i hi (by omega)
    · have h1 : 1 + k = k + 1 := by omega
      rw [h1]
      exact hsucc
  · unfold retryCall
    rw [retryCallGo_always_fails always err halways (maxAttempts - 1) 1]
    have h1 : 1 + (maxAttempts - 1) = maxAttempts := by omega
    have h2 : maxAttempts - 1 + 1 = maxAttempts := by omega
    rw [h1, h2]

/-- Witness for C4 at maxAttempts = 3 and k = 1. -/
theorem retry_policy_invocation_counts_witness :
    retryCall flakyAction 3 = (.ok 42, 2) ∧
    retryCall alwaysFailAction 3 = (.error "TimeoutError", 3) :=
  retry_policy_invocation_counts 3 1 (by decide) (by decide) flakyAction 42
    (fun i h1 h2 => ⟨"transient", by
      have hi : i = 1 := Nat.le_antisymm h2 h1
      rw [hi]
      rfl⟩)
    rfl alwaysFailAction (fun _ => "TimeoutError") (fun _ => rfl)

/-- C5: at the configured defaults (retry_base_seconds = 1.0,
retry_max_seconds = 20.0), the delay tenacity waits after the n-th failed
attempt (n ≥ 1, with attempts remaining) equals the specification formula
min(maxDelay, baseDelay * 2 ^ (n - 1)); the delays after the first
failures are 1, 2, 4, 8, 16 seconds, capped at 20. -/
theorem retry_backoff_delay_formula (n : Nat) (hn : 1 ≤ n) :
    retryConfiguredWait 1 20 n = specRetryDelay 1 20 n ∧
    retryConfiguredWait 1 20 1 = 1 ∧ retryConfiguredWait 1 20 2 = 2 ∧
    retryConfiguredWait 1 20 3 = 4 ∧ retryConfiguredWait 1 20 5 = 16 ∧
    retryConfiguredWait 1 20 6 = 20 := by
  refine ⟨?_, by norm_num [retryConfiguredWait, waitExponential],
    by norm_num [retryConfiguredWait, waitExponential],
    by norm_num [retryConfiguredWait, waitExponential],
    by norm_num [retryConfiguredWait, waitExponential],
    by norm_num [retryConfiguredWait, waitExponential]⟩
  unfold retryConfiguredWait waitExponential specRetryDelay
  have hpow : (1 : ℚ) ≤ 2 ^ (n - 1) := by
    calc (1 : ℚ) = 2 ^ 0 := by norm_num
    _ ≤ 2 ^ (n - 1) := by
      apply pow_le_pow_right₀ (by norm_num) (Nat.zero_le _)
  rw [one_mul]
  rw [show max (0 : ℚ) 1 = 1 by norm_num]
  rw [max_eq_right (le_min hpow (by norm_num))]
  rw [min_comm]

/-- Witness for C5 at n = 3. -/
theorem retry_backoff_delay_formula_witness :
    retryConfiguredWait 1 20 3 = specRetryDelay 1 20 3 :=
  (retry_backoff_delay_formula 3 (by norm_num)).1

/-- C8: the worker loop executes every dequeued task: a task body that
raises is caught and logged, and the loop continues with the next task,
so no task failure terminates the worker or reduces the number of tasks
executed. -/
theorem worker_loop_survives_task_failures (tasks : List TaskOutcome) :
    (workerLoop tasks).executed = tasks.length ∧
    (workerLoop tasks).logged = tasks.filterMap (fun t =>
      match execTask t with
      | .ok _ => none
      | .error e => some ("Background task failed: " ++ e)) := by
  induction tasks with
  | nil => exact ⟨rfl, rfl⟩
  | cons t rest ih =>
    cases t <;>
      simp [workerLoop, execTask, List.filterMap_cons, ih.1, ih.2]

/-- When the first attempt of the process_job body returns normally, the
retry wrapper stops after that one attempt. -/
theorem processJob_single_attempt (env : Nat → AttemptEnv) (maxRetries : Nat)
    (jobId : String) (s : JobStore)
    (h : (processJobAttempt (env 1) jobId s).raised = none) :
    processJob env maxRetries jobId s =
      { store := (processJobAttempt (env 1) jobId s).store, raised := none,
        attempts := 1, genCalls := (processJobAttempt (env 1) jobId s).genCalls } := by
  unfold processJob
  rw [processLoop_eq, h]

/-- C1 as stated is false on the code: with the generation action raising
on every invocation and maxRetries = 3, process_job records the failed
state after a single generation invocation — the except handler inside
process_job catches the error, so the retry wrapper never re-runs it. -/
theorem process_job_gen_not_retried_maxRetries :
    (processJob timeoutEnv 3 "job_1" sampleStore).genCalls = 1 ∧
    (processJob timeoutEnv 3 "job_1" sampleStore).genCalls ≠ 3 ∧
    statusOf (processJob timeoutEnv 3 "job_1" sampleStore).store "job_1" =
      some (some "failed") := by decide

/-- C1 amended: for every job present in the store whose generation
action raises the same error message on every invocation (store writes
succeeding), one process_job call invokes the action exactly once,
records the terminal failed state with that error message, and a
subsequent status poll returns 200 with status failed and that error
message. -/
theorem process_job_failing_gen_records_failed
    (env : Nat → AttemptEnv) (maxRetries : Nat) (jobId msg : String)
    (s : JobStore) (job : Job)
    (hl : lookupJob s jobId = some job)
    (hgen : ∀ n, (env n).gen = .error msg)
    (hrw : (env 1).runningWrite = none)
    (hfw : (env 1).failedWrite = none)
    (hmsg : msg ≠ "")
    (hid : (jobId == "" || jobId == "workflow-status" || jobId == "status") = false) :
    ∃ job',
      (processJob env maxRetries jobId s).attempts = 1 ∧
      (processJob env maxRetries jobId s).genCalls = 1 ∧
      (processJob env maxRetries jobId s).raised = none ∧
      lookupJob (processJob env maxRetries jobId s).store jobId = some job' ∧
      job'.status = some "failed" ∧
      job'.error_message = some msg ∧
      workflowStatus (processJob env maxRetries jobId s).store jobId none =
        .ok 200 (buildStatusBody job') ∧
      (buildStatusBody job').status = some "failed" ∧
      (buildStatusBody job').error = some msg := by
  have hatt : processJobAttempt (env 1) jobId s =
      { store := updateJob (updateJob s jobId (setRunning (env 1).now)) jobId
          (setFailed (env 1).now msg),
        raised := none, genCalls := 1 } := by
    simp only [processJobAttempt, hl, hrw, hgen 1, hfw]
  have hrun := processJob_single_attempt env maxRetries jobId s (by rw [hatt])
  rw [hatt] at hrun
  refine ⟨setFailed (env 1).now msg (setRunning (env 1).now job),
    by rw [hrun], by rw [hrun], by rw [hrun], ?_, rfl, rfl, ?_, rfl, ?_⟩
  · rw [hrun]
    simp [lookupJob_update_same, hl]
  · rw [hrun]
    simp [workflowStatus, hid, lookupJob_update_same, hl, truthyStr]
  · simp [buildStatusBody, setFailed, setRunning, truthyStr, hmsg]

/-- Witness for the amended C1 at the sample queued job. -/
theorem process_job_failing_gen_records_failed_witness :
    ∃ job',
      (processJob timeoutEnv 3 "job_1" sampleStore).attempts = 1 ∧
      (processJob timeoutEnv 3 "job_1" sampleStore).genCalls = 1 ∧
      (processJob timeoutEnv 3 "job_1" sampleStore).raised = none ∧
      lookupJob (processJob timeoutEnv 3 "job_1" sampleStore).store "job_1" =
        some job' ∧
      job'.status = some "failed" ∧
      job'.error_message = some "TimeoutError: generation timed out" ∧
      workflowStatus (processJob timeoutEnv 3 "job_1" sampleStore).store
        "job_1" none = .ok 200 (buildStatusBody job') ∧
      (buildStatusBody job').status = some "failed" ∧
      (buildStatusBody job').error = some "TimeoutError: generation timed out" :=
  process_job_failing_gen_records_failed timeoutEnv 3 "job_1"
    "TimeoutError: generation timed out" sampleStore sampleQueuedJob rfl
    (fun _ => rfl) rfl rfl (by decide) (by decide)

/-- C3 as stated is false on the code: process_job is itself decorated
with retry_configured(), so for an absent job id the not-found lookup is
performed three times (once per attempt, maxRetries = 3), not exactly
once. -/
theorem process_job_lookup_performed_thrice :
    (processJob timeoutEnv 3 "missing" []).attempts = 3 ∧
    (processJob timeoutEnv 3 "missing" []).attempts ≠ 1 := by decide

/-- C3 amended: for an absent job id, every attempt of the decorated
process_job raises the not-found ValueError and is retried: the lookup is
performed maxRetries times (one per attempt), the generation action is
never invoked, the store is never written, and the call then raises the
not-found error unchanged, so the task is abandoned and the error is
logged at the worker loop boundary. -/
theorem process_job_not_found_retries_lookup (env : Nat → AttemptEnv)
    (maxRetries : Nat) (jobId : String) (s : JobStore)
    (hmr : 1 ≤ maxRetries) (habs : lookupJob s jobId = none) :
    processJob env maxRetries jobId s =
      { store := s, raised := some ("Job not found: " ++ jobId),
        attempts := maxRetries, genCalls := 0 } := by
  unfold processJob
  rw [processLoop_notFound env jobId (maxRetries - 1) 1 s habs]
  have h2 : maxRetries - 1 + 1 = maxRetries := by omega
  rw [h2]

/-- Witness for the amended C3 at an empty store. -/
theorem process_job_not_found_retries_lookup_witness :
    processJob timeoutEnv 3 "missing" [] =
      { store := [], raised := some ("Job not found: " ++ "missing"),
        attempts := 3, genCalls := 0 } :=
  process_job_not_found_retries_lookup timeoutEnv 3 "missing" []
    (by decide) rfl

/-- C10: the completed-status write sits inside the same try block as the
generation call, so when generation succeeds but the completed write
raises, the except handler records the job as failed with the write
error message: a job whose generation succeeded can end terminal
failed. -/
theorem completed_write_failure_records_failed
    (env : Nat → AttemptEnv) (maxRetries : Nat) (jobId result e : String)
    (s : JobStore) (job : Job)
    (hl : lookupJob s jobId = some job)
    (hgen : (env 1).gen = .ok result)
    (hrw : (env 1).runningWrite = none)
    (hcw : (env 1).completedWrite = some e)
    (hfw : (env 1).failedWrite = none) :
    ∃ job',
      (processJob env maxRetries jobId s).raised = none ∧
      (processJob env maxRetries jobId s).genCalls = 1 ∧
      lookupJob (processJob env maxRetries jobId s).store jobId = some job' ∧
      job'.status = some "failed" ∧
      job'.error_message = some e := by
  have hatt : processJobAttempt (env 1) jobId s =
      { store := updateJob (updateJob s jobId (setRunning (env 1).now)) jobId
          (setFailed (env 1).now e),
        raised := none, genCalls := 1 } := by
    simp only [processJobAttempt, hl, hrw, hgen, hcw, hfw]
  have hrun := processJob_single_attempt env maxRetries jobId s (by rw [hatt])
  rw [hatt] at hrun
  refine ⟨setFailed (env 1).now e (setRunning (env 1).now job),
    by rw [hrun], by rw [hrun], ?_, rfl, rfl⟩
  rw [hrun]
  simp [lookupJob_update_same, hl]

/-- Witness for C10 at the sample queued job. -/
theorem completed_write_failure_records_failed_witness :
    ∃ job',
      (processJob compFailEnv 3 "job_1" sampleStore).raised = none ∧
      (processJob compFailEnv 3 "job_1" sampleStore).genCalls = 1 ∧
      lookupJob (processJob compFailEnv 3 "job_1" sampleStore).store "job_1" =
        some job' ∧
      job'.status = some "failed" ∧
      job'.error_message = some "ConnectionError: update failed" :=
  completed_write_failure_records_failed compFailEnv 3 "job_1"
    "generated-workflow" "ConnectionError: update failed" sampleStore
    sampleQueuedJob rfl rfl rfl rfl rfl

/-- C6 as stated is false on the code: a payload whose prompt field is
missing is not always rejected — _extract_prompt falls back to the
description field, so a description-only payload creates a job and is
answered 202. -/
theorem create_job_accepts_missing_prompt :
    descOnlyPayload.prompt = none ∧
    isAccepted (generateWorkflowAsync descOnlyPayload none "job_9" []) = true := by
  decide

/-- C6 amended: the prompt is extracted as (payload.prompt or
payload.description or "").strip(); when the extracted prompt is
non-empty a job row with status queued and progress_percentage 0 is
inserted and the call answers 202 with job_id, status queued, a message
and an estimated completion time; when it is empty the call answers 400
and no job row is created. -/
theorem create_job_validation (payload : GenPayload) (userId : Option String)
    (newJobId : String) (s : JobStore) :
    (extractPrompt payload ≠ "" →
      generateWorkflowAsync payload userId newJobId s =
        .accepted 202
          { job_id := newJobId, status := "queued",
            message := "Workflow generation job created. Poll /workflow-status/{job_id} for results.",
            estimated_completion_time := "30-120 seconds" }
          ((newJobId, newQueuedJob payload userId newJobId) :: s) ∧
      (newQueuedJob payload userId newJobId).status = some "queued" ∧
      (newQueuedJob payload userId newJobId).progress_percentage = some 0) ∧
    (extractPrompt payload = "" →
      generateWorkflowAsync payload userId newJobId s =
        .badRequest 400 "Prompt is required and must be a non-empty string") := by
  constructor
  · intro h
    have hb : (extractPrompt payload == "") = false := by simpa using h
    exact ⟨by simp [generateWorkflowAsync, hb], rfl, rfl⟩
  · intro h
    simp [generateWorkflowAsync, h]

/-- Witness for the amended C6: a prompt payload is accepted, an empty
payload is rejected. -/
theorem create_job_validation_witness :
    (generateWorkflowAsync samplePayload none "job_1" [] =
      .accepted 202
        { job_id := "job_1", status := "queued",
          message := "Workflow generation job created. Poll /workflow-status/{job_id} for results.",
          estimated_completion_time := "30-120 seconds" }
        [("job_1", newQueuedJob samplePayload none "job_1")] ∧
      (newQueuedJob samplePayload none "job_1").status = some "queued" ∧
      (newQueuedJob samplePayload none "job_1").progress_percentage = some 0) ∧
    generateWorkflowAsync emptyPayload none "job_1" [] =
      .badRequest 400 "Prompt is required and must be a non-empty string" :=
  ⟨(create_job_validation samplePayload none "job_1" []).1 (by decide),
   (create_job_validation emptyPayload none "job_1" []).2 rfl⟩

/-- C7: for a status read with a valid job id path segment: 404 with
"Job not found" when the row is absent; 403 with "Forbidden" when a
requester identity is resolved, an owner is recorded and they differ;
otherwise 200 with the job id, status, progress, timestamps, the
workflow field only when status is completed and the error fields only
when status is failed. -/
theorem status_read_result (s : JobStore) (jobId : String)
    (userId : Option String)
    (hid : (jobId == "" || jobId == "workflow-status" || jobId == "status") = false) :
    (lookupJob s jobId = none →
      workflowStatus s jobId userId =
        .notFound 404 "Job not found" ("Job with ID " ++ jobId ++ " not found")) ∧
    (∀ job u o, lookupJob s jobId = some job → userId = some u → u ≠ "" →
      job.user_id = some o → o ≠ "" → o ≠ u →
      workflowStatus s jobId userId =
        .forbidden 403 "Forbidden" "You do not have access to this job") ∧
    (∀ job, lookupJob s jobId = some job →
      (truthyStr userId && truthyStr job.user_id && job.user_id != userId) = false →
      workflowStatus s jobId userId = .ok 200 (buildStatusBody job) ∧
      (buildStatusBody job).job_id = job.id ∧
      (buildStatusBody job).status = job.status ∧
      (buildStatusBody job).progress_percentage = job.progress_percentage.getD 0 ∧
      (buildStatusBody job).created_at = job.created_at ∧
      (buildStatusBody job).started_at = job.started_at ∧
      (buildStatusBody job).finished_at = job.finished_at ∧
      (buildStatusBody job).duration_ms = job.duration_ms ∧
      ((buildStatusBody job).workflow.isSome → job.status = some "completed") ∧
      ((buildStatusBody job).error.isSome → job.status = some "failed") ∧
      ((buildStatusBody job).error_details.isSome → job.status = some "failed")) := by
  refine ⟨?_, ?_, ?_⟩
  · intro h
    simp [workflowStatus, hid, h]
  · intro job u o hjob hu hune ho hone hneq
    subst hu
    have hcond : (truthyStr (some u) && truthyStr job.user_id &&
        (job.user_id != some u)) = true := by
      rw [ho]
      simp only [truthyStr, Bool.and_eq_true, bne_iff_ne, ne_eq,
        Option.some.injEq]
      exact ⟨⟨hune, hone⟩, fun h => hneq h⟩
    simp [workflowStatus, hid, hjob, hcond]
  · intro job hjob hcond
    refine ⟨by simp [workflowStatus, hid, hjob, hcond], rfl, rfl, rfl, rfl,
      rfl, rfl, rfl, ?_, ?_, ?_⟩
    · intro hw
      by_cases hc : (job.status == some "completed" &&
          truthyStr job.workflow_result) = true
      · exact eq_of_beq ((Bool.and_eq_true _ _).mp hc).1
      · have hnone : (buildStatusBody job).workflow = none := by
          simp only [buildStatusBody]
          rw [if_neg hc]
        rw [hnone] at hw
        simp at hw
    · intro hw
      by_cases hc : (job.status == some "failed" &&
          truthyStr job.error_message) = true
      · exact eq_of_beq ((Bool.and_eq_true _ _).mp hc).1
      · have hnone : (buildStatusBody job).error = none := by
          simp only [buildStatusBody]
          rw [if_neg hc]
        rw [hnone] at hw
        simp at hw
    · intro hw
      by_cases hc : (job.status == some "failed" &&
          truthyStr job.error_message) = true
      · exact eq_of_beq ((Bool.and_eq_true _ _).mp hc).1
      · have hnone : (buildStatusBody job).error_details = none := by
          simp only [buildStatusBody]
          rw [if_neg hc]
        rw [hnone] at hw
        simp at hw

/-- Witness for C7: the three outcomes at concrete stores. -/
theorem status_read_result_witness :
    workflowStatus [] "jx" none =
      .notFound 404 "Job not found" ("Job with ID " ++ "jx" ++ " not found") ∧
    workflowStatus ownedStore "job_2" (some "user_b") =
      .forbidden 403 "Forbidden" "You do not have access to this job" ∧
    workflowStatus sampleStore "job_1" none =
      .ok 200 (buildStatusBody sampleQueuedJob) :=
  ⟨(status_read_result [] "jx" none (by decide)).1 rfl,
   (status_read_result ownedStore "job_2" (some "user_b") (by decide)).2.1
     ownedQueuedJob "user_b" "user_a" rfl rfl (by decide) rfl (by decide)
     (by decide),
   ((status_read_result sampleStore "job_1" none (by decide)).2.2
     sampleQueuedJob rfl (by decide)).1⟩

/-- C9: the owner check fires only when both a requester identity and an
owner are present and truthy: a status read with no resolvable requester
identity (no Authorization header, or a token resolving to no user)
returns the full 200 view even when the job has an owner recorded. -/
theorem owner_check_needs_requester_identity (s : JobStore) (jobId : String)
    (job : Job)
    (hid : (jobId == "" || jobId == "workflow-status" || jobId == "status") = false)
    (hl : lookupJob s jobId = some job) :
    workflowStatus s jobId none = .ok 200 (buildStatusBody job) := by
  simp [workflowStatus, hid, hl, truthyStr]

/-- Witness for C9 at a job with a recorded owner. -/
theorem owner_check_needs_requester_identity_witness :
    workflowStatus ownedStore "job_2" none =
      .ok 200 (buildStatusBody ownedQueuedJob) :=
  owner_check_needs_requester_identity ownedStore "job_2" ownedQueuedJob
    (by decide) rfl

/-- C2 as stated is false on the code: nothing prevents a second process
call for the same job id, and it overwrites a terminal state — after a
create and a successful process the status is completed, and one more
process call whose generation fails moves it to failed. -/
theorem job_status_terminal_overwritten_on_reprocess :
    statusOf (runOps [] [Op.create samplePayload none "job_1",
      Op.process "job_1" 3 okEnv]) "job_1" = some (some "completed") ∧
    statusOf (runOps [] [Op.create samplePayload none "job_1",
      Op.process "job_1" 3 okEnv, Op.process "job_1" 3 boomEnv]) "job_1" =
      some (some "failed") := by
  decide

/-- C2 amended: over every trace of creations (with fresh ids), process
calls and status reads starting from an empty store, in which each job id
is processed at most once (the design assumption that a job is enqueued
exactly once), the status of every job id only moves forward along
queued, running, completed / failed between any two points of the trace:
it never returns to queued and a terminal status never changes. -/
theorem job_status_only_moves_forward (ops : List Op) (j : String)
    (hfresh : FreshCreates [] ops) (honce : AtMostOnce ops)
    (i k : Nat) (hik : i ≤ k) (hk : k ≤ ops.length) :
    statusLe (statusOf (runOps [] (ops.take i)) j)
      (statusOf (runOps [] (ops.take k)) j) := by
  have htt : (ops.take k).take i = ops.take i := by
    rw [List.take_take, Nat.min_eq_left hik]
  have hsplit : ops.take k = ops.take i ++ ((ops.take k).drop i) := by
    conv_lhs => rw [← List.take_append_drop i (ops.take k)]
    rw [htt]
  have hf' : FreshCreates [] (ops.take k) := freshCreates_take [] ops k hfresh
  have ha' : AtMostOnce (ops.take k) := atMostOnce_take ops k honce
  have hq' : FutureQR [] (ops.take k) := fun jobId _ => Or.inl rfl
  rw [hsplit] at hf' ha' hq'
  obtain ⟨hf2, ha2, hq2⟩ :=
    inv_after (ops.take i) ((ops.take k).drop i) [] hf' ha' hq'
  have hmain := runOps_statusLe_of_inv j ((ops.take k).drop i)
    (runOps [] (ops.take i)) hf2 ha2 hq2
  rw [hsplit, runOps_append]
  exact hmain

/-- Witness for the amended C2 on a create-then-process trace. -/
theorem job_status_only_moves_forward_witness :
    statusLe
      (statusOf (runOps [] ([Op.create samplePayload none "job_1",
        Op.process "job_1" 3 okEnv].take 1)) "job_1")
      (statusOf (runOps [] ([Op.create samplePayload none "job_1",
        Op.process "job_1" 3 okEnv].take 2)) "job_1") :=
  job_status_only_moves_forward
    [Op.create samplePayload none "job_1", Op.process "job_1" 3 okEnv] "job_1"
    (by
      intro i hi payload uid nid hget
      rcases i with _ | _ | i
      · have h0 : Op.create samplePayload none "job_1" =
            Op.create payload uid nid := hget
        injection h0 with h1 h2 h3
        subst h3
        rfl
      · exact Op.noConfusion hget
      · simp only [List.length_cons, List.length_nil] at hi
        omega)
    (by
      intro jobId
      by_cases h : ("job_1" == jobId) = true <;>
        simp [List.countP_cons, List.countP_nil, isProcOf, h])
    1 2 (by norm_num) (by norm_num)

end CtrlChecksWorker
